import Mathlib

/-!
Shallow embedding of the real-time connection manager of
force-app/main/default/lwc/signalRManagerDev/signalRManagerDev.js and of
the event-republishing client
force-app/main/default/lwc/rpRealTimeClientDev/rpRealTimeClientDev.js,
with theorems settling the specification's claims about them.

The manager is single-threaded and event-loop driven; its state is the
fields of the SignalRManager class, and each entry point is embedded as a
function on that state. Timers created by setTimeout are modelled
explicitly as a pending set carried next to the manager state, so claims
about scheduling and cancellation can be stated. Random jitter terms
(Math.random products) are passed in as rational parameters.
-/

namespace SignalRManagerDev

/-- Lifecycle state of a SignalR HubConnection as exposed by its state field
(the manager compares it against the Disconnected state at lines 80 and 150). -/
inductive HubState where
  | Disconnected
  | Connecting
  | Connected
  | Reconnecting
  deriving DecidableEq, Repr

/-- A transport connection object produced by the HubConnectionBuilder: an
identity for the built object, its lifecycle state, and the handler
registrations made on it through connection.on. -/
structure Connection where
  id : Nat
  state : HubState
  regs : List (String × Nat)
  deriving DecidableEq, Repr

/-- A browser WebSocket object together with its readyState (CONNECTING 0,
OPEN 1, CLOSING 2, CLOSED 3). In signalRManagerDev.js the websocket field is
declared at line 23 and read by several methods, but no method ever assigns
it, so no such object is ever created. -/
structure WebSocketObj where
  readyState : Nat
  deriving DecidableEq, Repr

/-- Parsed payload of a successful beaconAccess call: data.connectionUrl and
data.accessToken, either of which can be absent. -/
structure BeaconData where
  connectionUrl : Option String
  accessToken : Option String
  deriving DecidableEq, Repr

/-- Outcome of one fetchBeaconAccess() call (source lines 9 to 17): the parsed
beacon payload, or a thrown error, which fetchBeaconAccess logs and rethrows. -/
inductive FetchResult where
  | ok (b : BeaconData)
  | err
  deriving DecidableEq, Repr

/-- External world an initializeConnection run interacts with: the outcome of
the credential fetch at retry level k, and whether the transport start at
retry level k succeeds. -/
structure Env where
  fetch : Nat → FetchResult
  startOk : Nat → Bool

/-- The mutable instance fields of the SignalRManager class
(source lines 20 to 34). The eventHandlers Map from event name to a Set of
callbacks is an association list from event name to the list of callback
identities in insertion order. -/
structure Mgr where
  connection : Option Connection
  isInitialized : Bool
  websocket : Option WebSocketObj
  isConnecting : Bool
  isReconnecting : Bool
  retryTimeoutId : Option Nat
  reconnectAttempts : Nat
  eventHandlers : List (String × List Nat)
  deriving DecidableEq, Repr

/-- Field values the class declares at construction time. -/
def initialMgr : Mgr :=
  { connection := none, isInitialized := false, websocket := none,
    isConnecting := false, isReconnecting := false, retryTimeoutId := none,
    reconnectAttempts := 0, eventHandlers := [] }

/-- Source line 28. -/
def maxReconnectAttempts : Nat := 10

/-- Source line 29, in milliseconds. -/
def baseReconnectDelay : ℚ := 1000

/-- Source line 30, in milliseconds. -/
def maxReconnectDelay : ℚ := 30000

/-- Observable effects of an initializeConnection run: how many
fetchBeaconAccess calls it made, how many transport start calls, and the
retry delays it awaited, in order. -/
structure RunLog where
  fetches : Nat
  starts : Nat
  sleeps : List ℚ
  deriving DecidableEq, Repr

def emptyLog : RunLog := { fetches := 0, starts := 0, sleeps := [] }

/-- The credential check at source line 72: both data.connectionUrl and
data.accessToken must be present (and nonempty strings are modelled as
present values). -/
def hasFullCreds (b : BeaconData) : Bool :=
  b.connectionUrl.isSome && b.accessToken.isSome

/-- One level of the body of initializeConnection(retryCount, maxRetries,
retryDelay) (source lines 61 to 124), with recurse standing for the awaited
self-call at line 113 (reached only when the start failed and retryCount is
below maxRetries; the code clears isConnecting, sleeps retryDelay, and
recurses). freshId is the identity of the connection the
HubConnectionBuilder builds. The two throw sites (the rethrow inside
fetchBeaconAccess, and the throw of startError at line 116 once retries are
exhausted) are inlined together with the outer catch at lines 118 to 123
that receives both: it logs, clears isConnecting and resolves with null, so
the returned promise never rejects, which is why the result type carries no
error case. -/
def initConnStep (env : Env) (retryCount maxRetries : Nat) (retryDelay : ℚ)
    (m : Mgr) (log : RunLog) (freshId : Nat)
    (recurse : Mgr → RunLog → Nat → Mgr × RunLog × Option Connection) :
    Mgr × RunLog × Option Connection :=
  if m.isConnecting then
    (m, log, m.connection)
  else
    let m1 : Mgr := { m with isConnecting := true }
    match env.fetch retryCount with
    | FetchResult.err =>
        ({ m1 with isConnecting := false }, { log with fetches := log.fetches + 1 }, none)
    | FetchResult.ok b =>
        let log1 : RunLog := { log with fetches := log.fetches + 1 }
        if hasFullCreds b = false then
          ({ m1 with isConnecting := false }, log1, none)
        else
          let m2 : Mgr :=
            match m1.connection with
            | some c =>
                if c.state ≠ HubState.Disconnected then
                  { m1 with connection := some { c with state := HubState.Disconnected } }
                else m1
            | none => m1
          let newConn : Connection := { id := freshId, state := HubState.Disconnected, regs := [] }
          let m3 : Mgr := { m2 with connection := some newConn }
          let log2 : RunLog := { log1 with starts := log1.starts + 1 }
          if env.startOk retryCount then
            let m4 : Mgr := { m3 with
              connection := some { newConn with state := HubState.Connected },
              isInitialized := true, isConnecting := false }
            (m4, log2, m4.connection)
          else
            if retryCount < maxRetries then
              recurse { m3 with isConnecting := false }
                { log2 with sleeps := log2.sleeps ++ [retryDelay] } (freshId + 1)
            else
              ({ m3 with isConnecting := false }, log2, none)

/-- Ties the recursion of initializeConnection to the fuel: at each level the
self-call of line 113 continues with retryCount + 1 and one unit of fuel
less. The fuel-zero fallback resolves with null exactly as the exhausted
branch does; it is never reached from the wrapper, whose fuel choice leaves
positive fuel whenever retryCount is below maxRetries. -/
def initConnFuel (env : Env) : Nat → Nat → Nat → ℚ → Mgr → RunLog → Nat →
    Mgr × RunLog × Option Connection
  | 0, retryCount, maxRetries, retryDelay, m, log, freshId =>
      initConnStep env retryCount maxRetries retryDelay m log freshId
        (fun m1 log1 _ => (m1, log1, none))
  | fuel + 1, retryCount, maxRetries, retryDelay, m, log, freshId =>
      initConnStep env retryCount maxRetries retryDelay m log freshId
        (initConnFuel env fuel (retryCount + 1) maxRetries retryDelay)

/-- Embeds initializeConnection(retryCount, maxRetries, retryDelay); the
source defaults are 0, 3 and 2000. -/
def initializeConnection (env : Env) (retryCount maxRetries : Nat)
    (retryDelay : ℚ) (m : Mgr) (log : RunLog) (freshId : Nat) :
    Mgr × RunLog × Option Connection :=
  initConnFuel env (maxRetries + 1 - retryCount) retryCount maxRetries retryDelay m log freshId

/-- A rejected script load is the one way initialize(context) rejects. -/
inductive InitError where
  | scriptLoadError
  deriving DecidableEq, Repr

/-- Embeds initialize(context) (source lines 43 to 59): return the existing
connection when already initialized; otherwise load the SignalR script (a
rejected load is rethrown), then run initializeConnection with its default
arguments and return the connection field. -/
def initializeMgr (env : Env) (loadOk : Bool) (m : Mgr) (log : RunLog) (freshId : Nat) :
    Mgr × RunLog × Except InitError (Option Connection) :=
  if m.isInitialized then (m, log, Except.ok m.connection)
  else if loadOk = false then (m, log, Except.error InitError.scriptLoadError)
  else
    let r := initializeConnection env 0 3 2000 m log freshId
    (r.1, r.2.1, Except.ok r.1.connection)

/-- Embeds isConnected() (source lines 339 to 341): the JS expression is
falsy when websocket is null; its truthiness is modelled as a Bool.
WebSocket.OPEN is 1. -/
def isConnected (m : Mgr) : Bool :=
  match m.websocket with
  | none => false
  | some ws => ws.readyState == 1

/-- Embeds getConnectionState() (source lines 343 to 353). -/
def getConnectionState (m : Mgr) : String :=
  match m.websocket with
  | none => "Disconnected"
  | some ws =>
      if ws.readyState == 0 then "Connecting"
      else if ws.readyState == 1 then "Connected"
      else if ws.readyState == 2 then "Closing"
      else if ws.readyState == 3 then "Disconnected"
      else "Unknown"

/-- Embeds send(data) (source lines 292 to 307): transmit only when the
websocket exists and its readyState is OPEN; the result is the returned
boolean together with the frames actually transmitted (serialization of the
payload is modelled as always succeeding, so the inner catch that also
returns false is not reachable in the model). -/
def send (m : Mgr) (data : String) : Bool × List String :=
  match m.websocket with
  | some ws => if ws.readyState == 1 then (true, [data]) else (false, [])
  | none => (false, [])

/-- Adds a callback to the Set stored under eventName, creating the entry
when absent (source lines 272 to 275); Set semantics make re-adding a
callback already present a no-op. -/
def addHandler : List (String × List Nat) → String → Nat → List (String × List Nat)
  | [], e, cb => [(e, [cb])]
  | (e', cbs) :: rest, e, cb =>
      if e' = e then (e', if cb ∈ cbs then cbs else cbs ++ [cb]) :: rest
      else (e', cbs) :: addHandler rest e cb

/-- The error thrown by on() when the connection field is null
(source line 269). -/
inductive OnError where
  | notInitialized
  deriving DecidableEq, Repr

/-- Embeds on(eventName, callback) (source lines 267 to 278): throw when no
connection exists; otherwise record the callback in the eventHandlers
registry and register it on the transport. -/
def onEvent (m : Mgr) (e : String) (cb : Nat) : Except OnError Mgr :=
  match m.connection with
  | none => Except.error OnError.notInitialized
  | some c =>
      Except.ok { m with
        eventHandlers := addHandler m.eventHandlers e cb,
        connection := some { c with regs := c.regs ++ [(e, cb)] } }

/-- Deletes one callback from the Set stored under e, when that entry exists
(the entry itself stays, as with Map.get(e)?.delete(cb)). -/
def removeHandler : List (String × List Nat) → String → Nat → List (String × List Nat)
  | [], _, _ => []
  | (e', cbs) :: rest, e, cb =>
      if e' = e then (e', cbs.filter (fun x => x ≠ cb)) :: rest
      else (e', cbs) :: removeHandler rest e cb

/-- Deletes the registry entry for e entirely, as with Map.delete(e). -/
def dropHandlers (hs : List (String × List Nat)) (e : String) : List (String × List Nat) :=
  hs.filter (fun p => p.1 ≠ e)

/-- Embeds off(eventName, callback) (source lines 280 to 290): with no
connection it silently returns without error; given a callback it removes
that one registration from the transport and from the registry Set, and
without one it removes every transport registration for the event name and
drops the whole registry entry. -/
def offEvent (m : Mgr) (e : String) (cb : Option Nat) : Mgr :=
  match m.connection with
  | none => m
  | some c =>
      match cb with
      | some k =>
          { m with
            connection := some { c with regs := c.regs.filter (fun p => p ≠ (e, k)) },
            eventHandlers := removeHandler m.eventHandlers e k }
      | none =>
          { m with
            connection := some { c with regs := c.regs.filter (fun p => p.1 ≠ e) },
            eventHandlers := dropHandlers m.eventHandlers e }

/-- Which callback a pending setTimeout runs: the one passed by
scheduleReconnect at line 256, or the one passed by retryConnection at
line 148. -/
inductive TimerKind where
  | scheduleReconnectRetry
  | retryConnectionRetry
  deriving DecidableEq, Repr

/-- A pending timer created by setTimeout: its identity, its delay in
milliseconds, and which callback it carries. -/
structure Timer where
  id : Nat
  delay : ℚ
  kind : TimerKind
  deriving DecidableEq, Repr

/-- Manager state together with the event loop's pending timers and the
counter producing fresh setTimeout identities. -/
structure World where
  mgr : Mgr
  pending : List Timer
  nextTimerId : Nat
  deriving DecidableEq, Repr

def initialWorld : World := { mgr := initialMgr, pending := [], nextTimerId := 0 }

/-- The delay the code computes at source lines 249 to 252 for the n-th
reconnect attempt, where j stands for the sampled value of the jitter term
Math.random() * 1000, so 0 ≤ j < 1000. -/
def backoffDelay (n : Nat) (j : ℚ) : ℚ :=
  min (baseReconnectDelay * 2 ^ (n - 1) + j) maxReconnectDelay

/-- Embeds scheduleReconnect() (source lines 239 to 265) with jitter j: give
up silently when already reconnecting or the attempt ceiling is reached;
otherwise set the reconnecting guard, increment the attempt counter, and
create exactly one new timer, overwriting retryTimeoutId without canceling
any timer already pending (the function contains no clearTimeout call). -/
def scheduleReconnect (w : World) (j : ℚ) : World :=
  if w.mgr.isReconnecting ∨ maxReconnectAttempts ≤ w.mgr.reconnectAttempts then w
  else
    let attempts := w.mgr.reconnectAttempts + 1
    { mgr := { w.mgr with
        isReconnecting := true
        reconnectAttempts := attempts
        retryTimeoutId := some w.nextTimerId },
      pending := w.pending ++ [{ id := w.nextTimerId, delay := backoffDelay attempts j,
                                 kind := TimerKind.scheduleReconnectRetry }],
      nextTimerId := w.nextTimerId + 1 }

/-- Embeds retryConnection() (source lines 142 to 158) with r for the sampled
Math.random(), so 0 ≤ r < 1: cancel the timer recorded in retryTimeoutId if
any, then create one timer with delay 5000 + r * 10000 milliseconds. -/
def retryConnection (w : World) (r : ℚ) : World :=
  let w1 : World :=
    match w.mgr.retryTimeoutId with
    | some tid => { w with pending := w.pending.filter (fun t => t.id ≠ tid) }
    | none => w
  { mgr := { w1.mgr with retryTimeoutId := some w1.nextTimerId },
    pending := w1.pending ++ [{ id := w1.nextTimerId, delay := 5000 + r * 10000,
                                kind := TimerKind.retryConnectionRetry }],
    nextTimerId := w1.nextTimerId + 1 }

/-- Embeds the onclose lifecycle handler installed by
setupConnectionEventHandlers (source lines 135 to 139): log the close reason
and call retryConnection(). -/
def onCloseHandler (w : World) (r : ℚ) : World := retryConnection w r

/-- Embeds the callback of the timer set by scheduleReconnect (source lines
256 to 264): await initializeConnection() with its default arguments. The
catch branch, which would clear isReconnecting and chain another
scheduleReconnect, is unreachable, because initializeConnection resolves on
every path (its outer catch turns every failure into a resolved null). -/
def scheduleTimerCallback (env : Env) (w : World) (freshId : Nat) : World :=
  { w with mgr := (initializeConnection env 0 3 2000 w.mgr emptyLog freshId).1 }

/-- Embeds the callback of the timer set by retryConnection (source lines 148
to 157): run initializeConnection only when the current connection exists and
its state is Disconnected; its catch only logs. -/
def retryTimerCallback (env : Env) (w : World) (freshId : Nat) : World :=
  match w.mgr.connection with
  | some c =>
      if c.state = HubState.Disconnected then
        { w with mgr := (initializeConnection env 0 3 2000 w.mgr emptyLog freshId).1 }
      else w
  | none => w

/-- The event loop fires the pending timer with identity tid: remove it from
the pending set and run the callback it carries. -/
def fireTimer (env : Env) (w : World) (tid freshId : Nat) : World :=
  match w.pending.find? (fun t => t.id == tid) with
  | none => w
  | some t =>
      let w1 : World := { w with pending := w.pending.filter (fun u => u.id ≠ tid) }
      match t.kind with
      | TimerKind.scheduleReconnectRetry => scheduleTimerCallback env w1 freshId
      | TimerKind.retryConnectionRetry => retryTimerCallback env w1 freshId

/-- Embeds stop() (source lines 309 to 333): cancel the timer recorded in
retryTimeoutId and null the field; then, only when a connection exists,
unregister every registry handler from the transport, clear the registry,
stop the transport (failures are logged and swallowed), null the connection
and reset isInitialized and isConnecting. The per-handler connection.off
loop acts on the connection object that the same synchronous block then
nulls, so it is not separately observable. -/
def stopMgr (w : World) : World :=
  let w1 : World :=
    match w.mgr.retryTimeoutId with
    | some tid =>
        { w with pending := w.pending.filter (fun t => t.id ≠ tid),
                 mgr := { w.mgr with retryTimeoutId := none } }
    | none => w
  match w1.mgr.connection with
  | some _ =>
      { w1 with mgr := { w1.mgr with
          eventHandlers := []
          connection := none
          isInitialized := false
          isConnecting := false } }
  | none => w1

/-- One externally triggerable operation of the manager: every public entry
point that mutates state, the transport close event, and the event loop
firing a pending timer. send() reads state without mutating it and is
covered by the observers. -/
inductive Op where
  | opInit (env : Env) (loadOk : Bool) (freshId : Nat)
  | opInitConn (env : Env) (freshId : Nat)
  | opClose (r : ℚ)
  | opSchedule (j : ℚ)
  | opFire (env : Env) (tid freshId : Nat)
  | opOn (e : String) (cb : Nat)
  | opOff (e : String) (cb : Option Nat)
  | opStop

/-- Applies one operation to the world; a thrown on() leaves state unchanged. -/
def applyOp (w : World) : Op → World
  | Op.opInit env loadOk freshId =>
      { w with mgr := (initializeMgr env loadOk w.mgr emptyLog freshId).1 }
  | Op.opInitConn env freshId =>
      { w with mgr := (initializeConnection env 0 3 2000 w.mgr emptyLog freshId).1 }
  | Op.opClose r => onCloseHandler w r
  | Op.opSchedule j => scheduleReconnect w j
  | Op.opFire env tid freshId => fireTimer env w tid freshId
  | Op.opOn e cb =>
      match onEvent w.mgr e cb with
      | Except.ok m1 => { w with mgr := m1 }
      | Except.error _ => w
  | Op.opOff e cb => { w with mgr := offEvent w.mgr e cb }
  | Op.opStop => stopMgr w

/-- Runs a sequence of operations from a given world. -/
def runOps (w : World) (ops : List Op) : World := ops.foldl applyOp w

/-- Synchronous prefix of a fresh initializeConnection invocation up to its
first suspension point, the credential fetch (source lines 62 to 70): the
guard is observed clear and set. -/
def initSeg1 (m : Mgr) : Mgr := { m with isConnecting := true }

/-- Second segment of the success scenario: the fetch resolved with complete
credentials; any previous non-disconnected connection is stopped, the new
transport is built with its lifecycle handlers installed, and its start() is
called, the next suspension point (source lines 72 to 101). -/
def initSeg2 (m : Mgr) (freshId : Nat) : Mgr :=
  let m2 : Mgr :=
    match m.connection with
    | some c =>
        if c.state ≠ HubState.Disconnected then
          { m with connection := some { c with state := HubState.Disconnected } }
        else m
    | none => m
  { m2 with connection := some { id := freshId, state := HubState.Disconnected, regs := [] } }

/-- Final segment of the success scenario: start() resolved successfully
(source lines 101 to 105). -/
def initSeg3 (m : Mgr) : Mgr :=
  { m with connection := m.connection.map (fun c => { c with state := HubState.Connected }),
           isInitialized := true, isConnecting := false }

/-- The envelope published on the FORMMC message channel
(rpRealTimeClientDev.js lines 81 to 85). -/
structure Envelope (α : Type) where
  type : String
  title : String
  callFormData : α
  deriving DecidableEq, Repr

/-- Publishes performed onto the outbound FORMMC message channel by the
handler that setupEventHandlers of rpRealTimeClientDev.js (lines 51 to 101)
registers for the given event name, applied to payload p; an event name with
no registered handler publishes nothing. Every registered handler except the
FormDataExtracted one only logs. -/
def handlerPublishes {α : Type} (name : String) (p : α) : List (Envelope α) :=
  if name = "CallStatusChanged" then []
  else if name = "UserStatusUpdate" then []
  else if name = "UserDisconnectMessage" then []
  else if name = "RPBookmarkTriggered" then []
  else if name = "RCTranscription" then []
  else if name = "FormDataExtracted" then
    [{ type := "inProgressFormData", title := "rpRealTimeClientDev", callFormData := p }]
  else if name = "connection_status" then []
  else if name = "error" then []
  else []

section Lemmas

/-- The in-progress guard at source lines 62 to 65 makes any invocation that
observes isConnecting set return the current connection at once: no state
change, no credential fetch, no transport start. -/
theorem initConnStep_guard (env : Env) (rc mr : Nat) (rd : ℚ) (m : Mgr)
    (log : RunLog) (fid : Nat)
    (k : Mgr → RunLog → Nat → Mgr × RunLog × Option Connection)
    (h : m.isConnecting = true) :
    initConnStep env rc mr rd m log fid k = (m, log, m.connection) := by
  unfold initConnStep
  simp [h]

/-- Guard behavior lifted to the fueled recursion. -/
theorem initConnFuel_guard (env : Env) (fuel rc mr : Nat) (rd : ℚ) (m : Mgr)
    (log : RunLog) (fid : Nat) (h : m.isConnecting = true) :
    initConnFuel env fuel rc mr rd m log fid = (m, log, m.connection) := by
  cases fuel with
  | zero => exact initConnStep_guard env rc mr rd m log fid _ h
  | succ n => exact initConnStep_guard env rc mr rd m log fid _ h

/-- Guard behavior of initializeConnection itself. -/
theorem initializeConnection_guard (env : Env) (rc mr : Nat) (rd : ℚ) (m : Mgr)
    (log : RunLog) (fid : Nat) (h : m.isConnecting = true) :
    initializeConnection env rc mr rd m log fid = (m, log, m.connection) :=
  initConnFuel_guard env _ rc mr rd m log fid h

/-- Fields of the manager that no branch of initializeConnection assigns. -/
def sameFrame (m m2 : Mgr) : Prop :=
  m2.websocket = m.websocket ∧ m2.isReconnecting = m.isReconnecting
  ∧ m2.reconnectAttempts = m.reconnectAttempts ∧ m2.retryTimeoutId = m.retryTimeoutId
  ∧ m2.eventHandlers = m.eventHandlers

theorem initConnStep_frame (env : Env) (rc mr : Nat) (rd : ℚ) (m : Mgr)
    (log : RunLog) (fid : Nat)
    (k : Mgr → RunLog → Nat → Mgr × RunLog × Option Connection)
    (hk : ∀ m1 log1 f1, sameFrame m1 (k m1 log1 f1).1) :
    sameFrame m (initConnStep env rc mr rd m log fid k).1 := by
  obtain ⟨con0, ini0, ws0, isc0, isr0, rt0, ra0, eh0⟩ := m
  unfold initConnStep
  dsimp only
  repeat' split
  all_goals first
    | exact hk _ _ _
    | exact ⟨rfl, rfl, rfl, rfl, rfl⟩

/-- Frame preservation lifted to the fueled recursion. -/
theorem initConnFuel_frame (env : Env) :
    ∀ (fuel rc mr : Nat) (rd : ℚ) (m : Mgr) (log : RunLog) (fid : Nat),
    sameFrame m (initConnFuel env fuel rc mr rd m log fid).1
  | 0, rc, mr, rd, m, log, fid =>
      initConnStep_frame env rc mr rd m log fid _
        (fun _ _ _ => ⟨rfl, rfl, rfl, rfl, rfl⟩)
  | fuel + 1, rc, mr, rd, m, log, fid =>
      initConnStep_frame env rc mr rd m log fid _
        (fun m1 log1 f1 => initConnFuel_frame env fuel (rc + 1) mr rd m1 log1 f1)

/-- Frame preservation of initializeConnection. -/
theorem initializeConnection_frame (env : Env) (rc mr : Nat) (rd : ℚ) (m : Mgr)
    (log : RunLog) (fid : Nat) :
    sameFrame m (initializeConnection env rc mr rd m log fid).1 :=
  initConnFuel_frame env _ rc mr rd m log fid

end Lemmas

section GuardLemmas

/-- Every exit path of one body level clears isConnecting, provided the run
entered with the guard clear and the continuation does the same. -/
theorem initConnStep_isConnecting (env : Env) (rc mr : Nat) (rd : ℚ) (m : Mgr)
    (log : RunLog) (fid : Nat)
    (k : Mgr → RunLog → Nat → Mgr × RunLog × Option Connection)
    (hk : ∀ m1 log1 f1, m1.isConnecting = false → (k m1 log1 f1).1.isConnecting = false)
    (h : m.isConnecting = false) :
    (initConnStep env rc mr rd m log fid k).1.isConnecting = false := by
  obtain ⟨con0, ini0, ws0, isc0, isr0, rt0, ra0, eh0⟩ := m
  dsimp only at h
  subst h
  unfold initConnStep
  dsimp only
  repeat' split
  all_goals first
    | exact hk _ _ _ rfl
    | rfl

/-- The guard-cleared property lifted to the fueled recursion. -/
theorem initConnFuel_isConnecting (env : Env) :
    ∀ (fuel rc mr : Nat) (rd : ℚ) (m : Mgr) (log : RunLog) (fid : Nat),
    m.isConnecting = false → (initConnFuel env fuel rc mr rd m log fid).1.isConnecting = false
  | 0, rc, mr, rd, m, log, fid, h =>
      initConnStep_isConnecting env rc mr rd m log fid _ (fun _ _ _ h1 => h1) h
  | fuel + 1, rc, mr, rd, m, log, fid, h =>
      initConnStep_isConnecting env rc mr rd m log fid _
        (fun m1 log1 f1 h1 => initConnFuel_isConnecting env fuel (rc + 1) mr rd m1 log1 f1 h1) h

/-- The guard-cleared property of initializeConnection. -/
theorem initializeConnection_isConnecting (env : Env) (rc mr : Nat) (rd : ℚ)
    (m : Mgr) (log : RunLog) (fid : Nat) (h : m.isConnecting = false) :
    (initializeConnection env rc mr rd m log fid).1.isConnecting = false :=
  initConnFuel_isConnecting env _ rc mr rd m log fid h

end GuardLemmas

section WebsocketLemmas

/-- No operation assigns the websocket field. -/
theorem applyOp_websocket (w : World) (op : Op) :
    (applyOp w op).mgr.websocket = w.mgr.websocket := by
  cases op with
  | opInit env loadOk freshId =>
      show (initializeMgr env loadOk w.mgr emptyLog freshId).1.websocket = w.mgr.websocket
      unfold initializeMgr
      repeat' split
      · rfl
      · rfl
      · exact (initializeConnection_frame env 0 3 2000 w.mgr emptyLog freshId).1
  | opInitConn env freshId =>
      exact (initializeConnection_frame env 0 3 2000 w.mgr emptyLog freshId).1
  | opClose r =>
      show (retryConnection w r).mgr.websocket = w.mgr.websocket
      unfold retryConnection
      repeat' split <;> rfl
  | opSchedule j =>
      show (scheduleReconnect w j).mgr.websocket = w.mgr.websocket
      unfold scheduleReconnect
      repeat' split <;> rfl
  | opFire env tid freshId =>
      show (fireTimer env w tid freshId).mgr.websocket = w.mgr.websocket
      unfold fireTimer scheduleTimerCallback retryTimerCallback
      dsimp only
      repeat' split
      all_goals first
        | rfl
        | exact (initializeConnection_frame env 0 3 2000 _ emptyLog freshId).1
  | opOn e cb =>
      show (match onEvent w.mgr e cb with
            | Except.ok m1 => { w with mgr := m1 }
            | Except.error _ => w).mgr.websocket = w.mgr.websocket
      cases hc : w.mgr.connection with
      | none => simp [onEvent, hc]
      | some c => simp [onEvent, hc]
  | opOff e cb =>
      show (offEvent w.mgr e cb).websocket = w.mgr.websocket
      unfold offEvent
      repeat' split
      all_goals rfl
  | opStop =>
      show (stopMgr w).mgr.websocket = w.mgr.websocket
      unfold stopMgr
      dsimp only
      repeat' split
      all_goals rfl

/-- No sequence of operations assigns the websocket field. -/
theorem runOps_websocket (ops : List Op) :
    ∀ w : World, (runOps w ops).mgr.websocket = w.mgr.websocket := by
  induction ops with
  | nil => intro w; rfl
  | cons op rest ih =>
      intro w
      show (runOps (applyOp w op) rest).mgr.websocket = w.mgr.websocket
      rw [ih (applyOp w op), applyOp_websocket]

end WebsocketLemmas

section ScheduleLemmas

/-- The guard at source lines 240 to 243: scheduleReconnect does nothing when
already reconnecting or the attempt ceiling is reached. -/
theorem scheduleReconnect_noop (w : World) (j : ℚ)
    (h : w.mgr.isReconnecting = true ∨ maxReconnectAttempts ≤ w.mgr.reconnectAttempts) :
    scheduleReconnect w j = w := by
  unfold scheduleReconnect
  rw [if_pos h]

/-- The scheduling branch of scheduleReconnect, made explicit. -/
theorem scheduleReconnect_sched (w : World) (j : ℚ)
    (h : ¬(w.mgr.isReconnecting = true ∨ maxReconnectAttempts ≤ w.mgr.reconnectAttempts)) :
    scheduleReconnect w j =
      { mgr := { w.mgr with
          isReconnecting := true
          reconnectAttempts := w.mgr.reconnectAttempts + 1
          retryTimeoutId := some w.nextTimerId },
        pending := w.pending ++
          [{ id := w.nextTimerId, delay := backoffDelay (w.mgr.reconnectAttempts + 1) j,
             kind := TimerKind.scheduleReconnectRetry }],
        nextTimerId := w.nextTimerId + 1 } := by
  unfold scheduleReconnect
  rw [if_neg h]

end ScheduleLemmas

section Fixtures

/-- A beacon payload carrying both credentials. -/
def goodBeacon : BeaconData :=
  { connectionUrl := some "https://hub.example/signalr", accessToken := some "token" }

/-- Credentials always available, transport start always fails. -/
def envAlwaysFail : Env :=
  { fetch := fun _ => FetchResult.ok goodBeacon, startOk := fun _ => false }

/-- The beacon responds but carries no credentials. -/
def envNoCreds : Env :=
  { fetch := fun _ => FetchResult.ok { connectionUrl := none, accessToken := none },
    startOk := fun _ => true }

/-- Credentials available and the transport start succeeds. -/
def envGood : Env :=
  { fetch := fun _ => FetchResult.ok goodBeacon, startOk := fun _ => true }

end Fixtures

/-- C1, counterexample: with the default arguments and a transport whose
start always fails, initializeConnection makes four start attempts, not at
most three, and resolves with null instead of rejecting (the result is an
ordinary value; the embedding's result type has no rejection case because
the outer catch at source lines 118 to 123 swallows the final throw). -/
theorem C1_cex_four_starts_and_null :
    (initializeConnection envAlwaysFail 0 3 2000 initialMgr emptyLog 0).2.1.starts = 4
    ∧ (initializeConnection envAlwaysFail 0 3 2000 initialMgr emptyLog 0).2.2 = none :=
  ⟨rfl, rfl⟩

/-- C1, amended: if the transport start fails on every invocation,
initializeConnection with the default arguments performs exactly
maxRetries + 1 = 4 start attempts (the initial attempt plus three retries),
fetching credentials before each and sleeping retryDelay milliseconds
between consecutive attempts, and then resolves with null — the exhausted
failure is caught, logged and not propagated — leaving the isConnecting
guard clear. -/
theorem C1_bounded_initial_retry (env : Env) (rd : ℚ) (b : BeaconData)
    (hf : ∀ k, env.fetch k = FetchResult.ok b) (hb : hasFullCreds b = true)
    (hs : ∀ k, env.startOk k = false) :
    (initializeConnection env 0 3 rd initialMgr emptyLog 0).2.1.starts = 4
    ∧ (initializeConnection env 0 3 rd initialMgr emptyLog 0).2.1.fetches = 4
    ∧ (initializeConnection env 0 3 rd initialMgr emptyLog 0).2.1.sleeps = [rd, rd, rd]
    ∧ (initializeConnection env 0 3 rd initialMgr emptyLog 0).2.2 = none
    ∧ (initializeConnection env 0 3 rd initialMgr emptyLog 0).1.isConnecting = false := by
  have e0 := hf 0; have e1 := hf 1; have e2 := hf 2; have e3 := hf 3
  have s0 := hs 0; have s1 := hs 1; have s2 := hs 2; have s3 := hs 3
  refine ⟨?_, ?_, ?_, ?_, ?_⟩ <;>
    simp [initializeConnection, initConnFuel, initConnStep, e0, e1, e2, e3, hb,
      s0, s1, s2, s3, initialMgr, emptyLog]

/-- C1, witness for the amended theorem at a concrete environment. -/
theorem C1_bounded_initial_retry_witness :
    (initializeConnection envAlwaysFail 0 3 2000 initialMgr emptyLog 0).2.1.starts = 4
    ∧ (initializeConnection envAlwaysFail 0 3 2000 initialMgr emptyLog 0).2.1.fetches = 4
    ∧ (initializeConnection envAlwaysFail 0 3 2000 initialMgr emptyLog 0).2.1.sleeps = [2000, 2000, 2000]
    ∧ (initializeConnection envAlwaysFail 0 3 2000 initialMgr emptyLog 0).2.2 = none
    ∧ (initializeConnection envAlwaysFail 0 3 2000 initialMgr emptyLog 0).1.isConnecting = false :=
  C1_bounded_initial_retry envAlwaysFail 2000 goodBeacon (fun _ => rfl) rfl (fun _ => rfl)

/-- C2, counterexample: two scheduleReconnect calls in quick succession from
the fresh state leave exactly the first timer (identity 0) pending — the
second call is a no-op rejected by the isReconnecting guard, no timer was
canceled and no second timer was ever created, so only the first timer can
fire, not the second as claimed. -/
theorem C2_cex_second_call_noop :
    scheduleReconnect (scheduleReconnect initialWorld 0) 0 = scheduleReconnect initialWorld 0
    ∧ (scheduleReconnect (scheduleReconnect initialWorld 0) 0).pending.map Timer.id = [0]
    ∧ (scheduleReconnect (scheduleReconnect initialWorld 0) 0).nextTimerId = 1 :=
  ⟨rfl, rfl, rfl⟩

/-- C2, amended: at most one pending retry timer results from consecutive
scheduleReconnect calls, but through the isReconnecting guard rather than
through cancellation: a scheduleReconnect call never cancels a pending
timer; a call that does schedule adds exactly one timer, and the following
call is then a no-op, so of two quick calls only the first ever fires; a
call made while the guard is set leaves the world unchanged. -/
theorem C2_single_pending_timer (w : World) (j j2 : ℚ) :
    scheduleReconnect (scheduleReconnect w j) j2 = scheduleReconnect w j
    ∧ (scheduleReconnect w j).pending.length ≤ w.pending.length + 1
    ∧ (∀ t ∈ w.pending, t ∈ (scheduleReconnect w j).pending)
    ∧ (w.mgr.isReconnecting = true → scheduleReconnect w j = w) := by
  by_cases h : (w.mgr.isReconnecting = true ∨ maxReconnectAttempts ≤ w.mgr.reconnectAttempts)
  · have hn : scheduleReconnect w j = w := scheduleReconnect_noop w j h
    rw [hn]
    exact ⟨scheduleReconnect_noop w j2 h, Nat.le_succ _, fun t ht => ht, fun _ => rfl⟩
  · have hs := scheduleReconnect_sched w j h
    refine ⟨?_, ?_, ?_, ?_⟩
    · rw [hs]
      exact scheduleReconnect_noop _ j2 (Or.inl rfl)
    · rw [hs]; simp
    · intro t ht; rw [hs]; simp [ht]
    · intro hr; exact absurd (Or.inl hr) h

/-- C2, witness for the amended theorem at the fresh world. -/
theorem C2_single_pending_timer_witness :
    (scheduleReconnect (scheduleReconnect initialWorld 2) 3 = scheduleReconnect initialWorld 2
      ∧ (scheduleReconnect initialWorld 2).pending.length ≤ initialWorld.pending.length + 1
      ∧ (∀ t ∈ initialWorld.pending, t ∈ (scheduleReconnect initialWorld 2).pending)
      ∧ (initialWorld.mgr.isReconnecting = true → scheduleReconnect initialWorld 2 = initialWorld))
    ∧ ({ initialWorld with mgr := { initialMgr with isReconnecting := true } } :
        World).mgr.isReconnecting = true :=
  ⟨C2_single_pending_timer initialWorld 2 3, rfl⟩

section StopLemmas

/-- stop() on a manager with no recorded timer and no connection is a no-op. -/
theorem stopMgr_eq_of_none_none (w : World) (hrt : w.mgr.retryTimeoutId = none)
    (hc : w.mgr.connection = none) : stopMgr w = w := by
  unfold stopMgr
  rw [hrt]
  dsimp only
  rw [hc]

/-- stop() with no recorded timer but a live connection clears the
connection-dependent state only. -/
theorem stopMgr_eq_of_none_some (w : World) (c : Connection)
    (hrt : w.mgr.retryTimeoutId = none) (hc : w.mgr.connection = some c) :
    stopMgr w = { w with mgr := { w.mgr with
      eventHandlers := []
      connection := none
      isInitialized := false
      isConnecting := false } } := by
  unfold stopMgr
  rw [hrt]
  dsimp only
  rw [hc]

/-- stop() with a recorded timer and no connection only cancels the timer. -/
theorem stopMgr_eq_of_some_none (w : World) (tid : Nat)
    (hrt : w.mgr.retryTimeoutId = some tid) (hc : w.mgr.connection = none) :
    stopMgr w = { w with
      pending := w.pending.filter (fun t => t.id ≠ tid)
      mgr := { w.mgr with retryTimeoutId := none } } := by
  unfold stopMgr
  rw [hrt]
  dsimp only
  rw [hc]

/-- stop() with a recorded timer and a live connection cancels the timer and
clears the connection-dependent state. -/
theorem stopMgr_eq_of_some_some (w : World) (tid : Nat) (c : Connection)
    (hrt : w.mgr.retryTimeoutId = some tid) (hc : w.mgr.connection = some c) :
    stopMgr w = { w with
      pending := w.pending.filter (fun t => t.id ≠ tid)
      mgr := { w.mgr with
        retryTimeoutId := none
        eventHandlers := []
        connection := none
        isInitialized := false
        isConnecting := false } } := by
  unfold stopMgr
  rw [hrt]
  dsimp only
  rw [hc]

end StopLemmas

/-- A world whose transport has closed (the connection object is left in the
Disconnected state) and whose reconnect attempt counter already sits at the
ceiling of 10, with no pending timer. -/
def wCeiling : World :=
  { mgr := { initialMgr with
      connection := some { id := 0, state := HubState.Disconnected, regs := [] }
      reconnectAttempts := 10 },
    pending := [], nextTimerId := 0 }

/-- C3, counterexample: when the transport close handler fires on a manager
whose attempt counter sits at the scheduleReconnect ceiling, a 5000 ms timer
is scheduled anyway, the counter stays 10 and the reconnecting guard stays
clear, while scheduleReconnect at the same state would schedule nothing at
all — so the close handler does not invoke the scheduleReconnect backoff
policy (exponential growth, attempt counter, ceiling). -/
theorem C3_cex_close_ignores_backoff_policy :
    (onCloseHandler wCeiling 0).pending.map Timer.delay = [5000]
    ∧ (onCloseHandler wCeiling 0).pending.map Timer.kind = [TimerKind.retryConnectionRetry]
    ∧ (onCloseHandler wCeiling 0).mgr.reconnectAttempts = 10
    ∧ (onCloseHandler wCeiling 0).mgr.isReconnecting = false
    ∧ scheduleReconnect wCeiling 0 = wCeiling := by
  refine ⟨?_, rfl, rfl, rfl, ?_⟩
  · show [(5000 : ℚ) + 0 * 10000] = [5000]
    norm_num
  · exact scheduleReconnect_noop wCeiling 0 (Or.inr (by norm_num [wCeiling, initialMgr, maxReconnectAttempts]))

/-- C3, amended: when the transport close handler fires, the manager calls
retryConnection(), not scheduleReconnect(): it cancels the timer recorded in
retryTimeoutId, schedules exactly one new retry timer with the flat jittered
delay 5000 + r * 10000 milliseconds, and neither increments the reconnect
attempt counter, nor sets the reconnecting guard, nor honors the attempt
ceiling. -/
theorem C3_close_invokes_retryConnection (w : World) (r : ℚ) :
    onCloseHandler w r = retryConnection w r
    ∧ (onCloseHandler w r).mgr.reconnectAttempts = w.mgr.reconnectAttempts
    ∧ (onCloseHandler w r).mgr.isReconnecting = w.mgr.isReconnecting
    ∧ (w.mgr.retryTimeoutId = none →
        (onCloseHandler w r).pending =
          w.pending ++ [{ id := w.nextTimerId, delay := 5000 + r * 10000,
                          kind := TimerKind.retryConnectionRetry }]) := by
  refine ⟨rfl, ?_, ?_, ?_⟩
  · show (retryConnection w r).mgr.reconnectAttempts = w.mgr.reconnectAttempts
    unfold retryConnection
    repeat' split
    all_goals rfl
  · show (retryConnection w r).mgr.isReconnecting = w.mgr.isReconnecting
    unfold retryConnection
    repeat' split
    all_goals rfl
  · intro hrt
    show (retryConnection w r).pending = _
    unfold retryConnection
    rw [hrt]

/-- C3, witness for the amended theorem at a concrete closed world. -/
theorem C3_close_invokes_retryConnection_witness :
    (onCloseHandler wCeiling (1/2) = retryConnection wCeiling (1/2)
      ∧ (onCloseHandler wCeiling (1/2)).mgr.reconnectAttempts = wCeiling.mgr.reconnectAttempts
      ∧ (onCloseHandler wCeiling (1/2)).mgr.isReconnecting = wCeiling.mgr.isReconnecting
      ∧ (wCeiling.mgr.retryTimeoutId = none →
          (onCloseHandler wCeiling (1/2)).pending =
            wCeiling.pending ++ [{ id := wCeiling.nextTimerId, delay := 5000 + (1/2) * 10000,
                                   kind := TimerKind.retryConnectionRetry }]))
    ∧ wCeiling.mgr.retryTimeoutId = none :=
  ⟨C3_close_invokes_retryConnection wCeiling (1/2), rfl⟩

/-- A world after a successful initialization followed by some reconnect
activity: a live connection, one registered handler, the reconnecting guard
set and five reconnect attempts consumed. -/
def wBusy : World :=
  { mgr := { initialMgr with
      connection := some { id := 0, state := HubState.Connected, regs := [("A", 1)] }
      isInitialized := true
      isReconnecting := true
      reconnectAttempts := 5
      eventHandlers := [("A", [1])] },
    pending := [], nextTimerId := 3 }

/-- C4, counterexample: stop() on a manager with the reconnecting guard set
and a consumed attempt counter leaves both untouched — it resets only
isInitialized and isConnecting, so it does not reset all lifecycle flags to
the uninitialized state as claimed. -/
theorem C4_cex_stop_keeps_reconnect_state :
    (stopMgr wBusy).mgr.isReconnecting = true
    ∧ (stopMgr wBusy).mgr.reconnectAttempts = 5 :=
  ⟨rfl, rfl⟩

/-- C4, amended: stop() cancels the pending retry timer and nulls its id,
empties the eventHandlers registry, nulls the connection, and resets the
isInitialized and isConnecting flags — but not the isReconnecting guard and
not the reconnect attempt counter; it is idempotent, afterwards isConnected()
is false and a subsequent on() call fails with the not-initialized error.
The two hypotheses record invariants of every reachable state: the websocket
field is never assigned, and a manager without a connection has an empty
registry (on() refuses to register without one). -/
theorem C4_stop_clears (w : World)
    (hinv : w.mgr.connection = none →
      w.mgr.eventHandlers = [] ∧ w.mgr.isInitialized = false ∧ w.mgr.isConnecting = false)
    (hws : w.mgr.websocket = none) :
    (stopMgr w).mgr.retryTimeoutId = none
    ∧ (∀ t ∈ (stopMgr w).pending, t ∈ w.pending ∧ w.mgr.retryTimeoutId ≠ some t.id)
    ∧ (stopMgr w).mgr.eventHandlers = []
    ∧ (stopMgr w).mgr.connection = none
    ∧ (stopMgr w).mgr.isInitialized = false
    ∧ (stopMgr w).mgr.isConnecting = false
    ∧ (stopMgr w).mgr.isReconnecting = w.mgr.isReconnecting
    ∧ (stopMgr w).mgr.reconnectAttempts = w.mgr.reconnectAttempts
    ∧ stopMgr (stopMgr w) = stopMgr w
    ∧ isConnected (stopMgr w).mgr = false
    ∧ (∀ e cb, onEvent (stopMgr w).mgr e cb = Except.error OnError.notInitialized) := by
  have hmain : (stopMgr w).mgr.retryTimeoutId = none
      ∧ (∀ t ∈ (stopMgr w).pending, t ∈ w.pending ∧ w.mgr.retryTimeoutId ≠ some t.id)
      ∧ (stopMgr w).mgr.eventHandlers = []
      ∧ (stopMgr w).mgr.connection = none
      ∧ (stopMgr w).mgr.isInitialized = false
      ∧ (stopMgr w).mgr.isConnecting = false
      ∧ (stopMgr w).mgr.isReconnecting = w.mgr.isReconnecting
      ∧ (stopMgr w).mgr.reconnectAttempts = w.mgr.reconnectAttempts
      ∧ (stopMgr w).mgr.websocket = w.mgr.websocket := by
    cases hrt : w.mgr.retryTimeoutId with
    | none =>
        cases hc : w.mgr.connection with
        | none =>
            obtain ⟨h1, h2, h3⟩ := hinv hc
            rw [stopMgr_eq_of_none_none w hrt hc]
            exact ⟨hrt, fun t ht => ⟨ht, by simp [hrt]⟩,
              h1, hc, h2, h3, rfl, rfl, rfl⟩
        | some c =>
            rw [stopMgr_eq_of_none_some w c hrt hc]
            exact ⟨hrt, fun t ht => ⟨ht, by simp [hrt]⟩,
              rfl, rfl, rfl, rfl, rfl, rfl, rfl⟩
    | some tid =>
        cases hc : w.mgr.connection with
        | none =>
            obtain ⟨h1, h2, h3⟩ := hinv hc
            rw [stopMgr_eq_of_some_none w tid hrt hc]
            refine ⟨rfl, ?_, h1, hc, h2, h3, rfl, rfl, rfl⟩
            intro t ht
            rw [List.mem_filter] at ht
            refine ⟨ht.1, ?_⟩
            have hne : t.id ≠ tid := by simpa using ht.2
            simp only [hrt, ne_eq, Option.some.injEq]
            exact fun h => hne h.symm
        | some c =>
            rw [stopMgr_eq_of_some_some w tid c hrt hc]
            refine ⟨rfl, ?_, rfl, rfl, rfl, rfl, rfl, rfl, rfl⟩
            intro t ht
            rw [List.mem_filter] at ht
            refine ⟨ht.1, ?_⟩
            have hne : t.id ≠ tid := by simpa using ht.2
            simp only [hrt, ne_eq, Option.some.injEq]
            exact fun h => hne h.symm
  obtain ⟨h1, h2, h3, h4, h5, h6, h7, h8, h9⟩ := hmain
  refine ⟨h1, h2, h3, h4, h5, h6, h7, h8, ?_, ?_, ?_⟩
  · exact stopMgr_eq_of_none_none (stopMgr w) h1 h4
  · rw [isConnected, h9, hws]
  · intro e cb
    rw [onEvent, h4]

/-- C4, witness for the amended theorem at a concrete busy world. -/
theorem C4_stop_clears_witness :
    ((stopMgr wBusy).mgr.retryTimeoutId = none
      ∧ (∀ t ∈ (stopMgr wBusy).pending, t ∈ wBusy.pending ∧ wBusy.mgr.retryTimeoutId ≠ some t.id)
      ∧ (stopMgr wBusy).mgr.eventHandlers = []
      ∧ (stopMgr wBusy).mgr.connection = none
      ∧ (stopMgr wBusy).mgr.isInitialized = false
      ∧ (stopMgr wBusy).mgr.isConnecting = false
      ∧ (stopMgr wBusy).mgr.isReconnecting = wBusy.mgr.isReconnecting
      ∧ (stopMgr wBusy).mgr.reconnectAttempts = wBusy.mgr.reconnectAttempts
      ∧ stopMgr (stopMgr wBusy) = stopMgr wBusy
      ∧ isConnected (stopMgr wBusy).mgr = false
      ∧ (∀ e cb, onEvent (stopMgr wBusy).mgr e cb = Except.error OnError.notInitialized))
    ∧ (wBusy.mgr.connection = none →
        wBusy.mgr.eventHandlers = [] ∧ wBusy.mgr.isInitialized = false ∧ wBusy.mgr.isConnecting = false)
    ∧ wBusy.mgr.websocket = none :=
  ⟨C4_stop_clears wBusy (fun h => by simp [wBusy, initialMgr] at h) rfl,
   fun h => by simp [wBusy, initialMgr] at h, rfl⟩

/-- C5: no operation of the manager ever assigns the websocket field — it
stays null from construction onward through every operation sequence,
including a successful initialize() that establishes a live SignalR
connection — so isConnected() always returns the falsy value,
getConnectionState() always answers Disconnected, and send() always returns
false without transmitting anything. -/
theorem C5_websocket_stays_null (ops : List Op) (d : String) :
    (runOps initialWorld ops).mgr.websocket = none
    ∧ isConnected (runOps initialWorld ops).mgr = false
    ∧ getConnectionState (runOps initialWorld ops).mgr = "Disconnected"
    ∧ send (runOps initialWorld ops).mgr d = (false, []) := by
  have h : (runOps initialWorld ops).mgr.websocket = none := runOps_websocket ops initialWorld
  exact ⟨h, by rw [isConnected, h], by rw [getConnectionState, h], by rw [send, h]⟩

/-- C6, counterexample: fire the timer set by scheduleReconnect in an
environment where the credentials are not ready; initializeConnection
resolves with null (an outcome of the scheduled retry callback), yet the
isReconnecting guard set by scheduleReconnect stays set — the callback
clears it only in its catch branch, which never runs because
initializeConnection never rejects. -/
theorem C6_cex_reconnecting_guard_left_set :
    (fireTimer envNoCreds (scheduleReconnect initialWorld 0) 0 5).mgr.isReconnecting = true :=
  rfl

/-- C6, amended: the isConnecting guard is indeed clear after every completed
initializeConnection() invocation that began with the guard clear (success,
credentials-not-ready, handled failure and exhausted retries alike); the
isReconnecting guard, however, survives the scheduled retry callback
unchanged on every outcome, because the callback body never touches it (the
catch branch that would clear it is unreachable: initializeConnection always
resolves), so no chained retry ever occurs. -/
theorem C6_guards_cleared (env : Env) (rc mr : Nat) (rd : ℚ) (m : Mgr)
    (log : RunLog) (fid : Nat) (w : World) (fid2 : Nat)
    (h : m.isConnecting = false) :
    (initializeConnection env rc mr rd m log fid).1.isConnecting = false
    ∧ (scheduleTimerCallback env w fid2).mgr.isReconnecting = w.mgr.isReconnecting :=
  ⟨initializeConnection_isConnecting env rc mr rd m log fid h,
   (initializeConnection_frame env 0 3 2000 w.mgr emptyLog fid2).2.1⟩

/-- C6, witness for the amended theorem at a concrete state. -/
theorem C6_guards_cleared_witness :
    ((initializeConnection envNoCreds 0 3 2000 initialMgr emptyLog 0).1.isConnecting = false
      ∧ (scheduleTimerCallback envNoCreds initialWorld 5).mgr.isReconnecting
          = initialWorld.mgr.isReconnecting)
    ∧ initialMgr.isConnecting = false :=
  ⟨C6_guards_cleared envNoCreds 0 3 2000 initialMgr emptyLog 0 initialWorld 5 rfl, rfl⟩

/-- The success-path run of initializeConnection is exactly the composition
of the three segments cut at its suspension points (the credential fetch and
the transport start), with one fetch and one start. -/
theorem initConn_success_decomp (env : Env) (mr : Nat) (rd : ℚ) (m : Mgr)
    (log : RunLog) (fid : Nat) (b : BeaconData)
    (hcon : m.isConnecting = false) (hf : env.fetch 0 = FetchResult.ok b)
    (hb : hasFullCreds b = true) (hs : env.startOk 0 = true) :
    initializeConnection env 0 mr rd m log fid =
      (initSeg3 (initSeg2 (initSeg1 m) fid),
       { log with fetches := log.fetches + 1, starts := log.starts + 1 },
       (initSeg3 (initSeg2 (initSeg1 m) fid)).connection) := by
  obtain ⟨con0, ini0, ws0, isc0, isr0, rt0, ra0, eh0⟩ := m
  dsimp only at hcon
  subst hcon
  unfold initializeConnection
  rw [Nat.sub_zero]
  cases con0 with
  | none =>
      simp [initConnFuel, initConnStep, hf, hb, hs, initSeg1, initSeg2, initSeg3]
  | some c =>
      by_cases hcs : c.state = HubState.Disconnected <;>
        simp [initConnFuel, initConnStep, hf, hb, hs, hcs, initSeg1, initSeg2, initSeg3]

/-- The guard holds at the second suspension point of the success run. -/
theorem initSeg2_isConnecting (m : Mgr) (fid : Nat) :
    (initSeg2 (initSeg1 m) fid).isConnecting = true := by
  unfold initSeg2 initSeg1
  repeat' split
  all_goals rfl

/-- C7: invoking initializeConnection a second time while a first invocation
with available credentials and a succeeding transport start is suspended at
either of its suspension points (the credential fetch or the transport
start) observes the in-progress guard and returns the current — possibly
still-connecting — connection, performing no credential fetch and no start
of its own, so the interleaving makes exactly one transport start call in
total (that of the first invocation). -/
theorem C7_no_concurrent_connect (env env2 : Env) (mr mr2 : Nat) (rd rd2 : ℚ)
    (m : Mgr) (log log2 : RunLog) (fid fid2 : Nat) (b : BeaconData)
    (hcon : m.isConnecting = false) (hf : env.fetch 0 = FetchResult.ok b)
    (hb : hasFullCreds b = true) (hs : env.startOk 0 = true) :
    initializeConnection env 0 mr rd m log fid =
      (initSeg3 (initSeg2 (initSeg1 m) fid),
       { log with fetches := log.fetches + 1, starts := log.starts + 1 },
       (initSeg3 (initSeg2 (initSeg1 m) fid)).connection)
    ∧ (initSeg1 m).isConnecting = true
    ∧ (initSeg2 (initSeg1 m) fid).isConnecting = true
    ∧ initializeConnection env2 0 mr2 rd2 (initSeg1 m) log2 fid2
        = (initSeg1 m, log2, (initSeg1 m).connection)
    ∧ initializeConnection env2 0 mr2 rd2 (initSeg2 (initSeg1 m) fid) log2 fid2
        = (initSeg2 (initSeg1 m) fid, log2, (initSeg2 (initSeg1 m) fid).connection)
    ∧ (initializeConnection env 0 mr rd m log fid).2.1.starts = log.starts + 1 := by
  have hdec := initConn_success_decomp env mr rd m log fid b hcon hf hb hs
  have hseg2 := initSeg2_isConnecting m fid
  refine ⟨hdec, rfl, hseg2,
    initializeConnection_guard env2 0 mr2 rd2 _ log2 fid2 rfl,
    initializeConnection_guard env2 0 mr2 rd2 _ log2 fid2 hseg2, ?_⟩
  rw [hdec]

/-- C7, witness at a concrete environment and the fresh manager. -/
theorem C7_no_concurrent_connect_witness :
    (initializeConnection envGood 0 3 2000 initialMgr emptyLog 0 =
      (initSeg3 (initSeg2 (initSeg1 initialMgr) 0),
       { emptyLog with fetches := emptyLog.fetches + 1, starts := emptyLog.starts + 1 },
       (initSeg3 (initSeg2 (initSeg1 initialMgr) 0)).connection)
    ∧ (initSeg1 initialMgr).isConnecting = true
    ∧ (initSeg2 (initSeg1 initialMgr) 0).isConnecting = true
    ∧ initializeConnection envGood 0 3 2000 (initSeg1 initialMgr) emptyLog 7
        = (initSeg1 initialMgr, emptyLog, (initSeg1 initialMgr).connection)
    ∧ initializeConnection envGood 0 3 2000 (initSeg2 (initSeg1 initialMgr) 0) emptyLog 7
        = (initSeg2 (initSeg1 initialMgr) 0, emptyLog, (initSeg2 (initSeg1 initialMgr) 0).connection)
    ∧ (initializeConnection envGood 0 3 2000 initialMgr emptyLog 0).2.1.starts
        = emptyLog.starts + 1)
    ∧ initialMgr.isConnecting = false :=
  ⟨C7_no_concurrent_connect envGood envGood 3 3 2000 2000 initialMgr emptyLog emptyLog 0 7
     goodBeacon rfl rfl rfl rfl, rfl⟩

/-- C8: for the n-th consecutive scheduleReconnect invocation (the attempt
counter stands at n - 1 < 10 and the guard is clear), the scheduled delay is
exactly min(1000 * 2^(n-1) + jitter, 30000); the computed delay is
non-decreasing from one invocation to the next up to the 30000 ms cap for
any jitters drawn from [0, 1000); and once reconnectAttempts has reached 10
no further timer is scheduled. -/
theorem C8_backoff_policy (w : World) (j j2 : ℚ) (n : Nat) :
    (w.mgr.isReconnecting = false → w.mgr.reconnectAttempts + 1 = n →
      w.mgr.reconnectAttempts < maxReconnectAttempts →
      (scheduleReconnect w j).pending = w.pending ++
        [{ id := w.nextTimerId,
           delay := min (baseReconnectDelay * 2 ^ (n - 1) + j) maxReconnectDelay,
           kind := TimerKind.scheduleReconnectRetry }])
    ∧ (1 ≤ n → 0 ≤ j → j < 1000 → 0 ≤ j2 → backoffDelay n j ≤ backoffDelay (n + 1) j2)
    ∧ (maxReconnectAttempts ≤ w.mgr.reconnectAttempts → scheduleReconnect w j = w) := by
  refine ⟨?_, ?_, ?_⟩
  · intro h1 h2 h3
    have hguard : ¬(w.mgr.isReconnecting = true ∨ maxReconnectAttempts ≤ w.mgr.reconnectAttempts) := by
      rintro (hx | hx)
      · rw [h1] at hx
        exact Bool.noConfusion hx
      · exact absurd hx (Nat.not_le.mpr h3)
    rw [scheduleReconnect_sched w j hguard]
    dsimp only
    rw [h2]
    rfl
  · intro hn hj0 hj1 hj20
    unfold backoffDelay baseReconnectDelay maxReconnectDelay
    rw [Nat.succ_sub_one]
    have h1 : (1 : ℚ) ≤ 2 ^ (n - 1) := one_le_pow₀ (by norm_num)
    have h2 : (2 : ℚ) ^ n = 2 ^ (n - 1) * 2 := by
      rw [← pow_succ]
      congr 1
      omega
    have key : (1000 : ℚ) * 2 ^ (n - 1) + j ≤ 1000 * 2 ^ n + j2 := by
      rw [h2]
      nlinarith
    exact min_le_min key (le_refl _)
  · exact fun h => scheduleReconnect_noop w j (Or.inr h)

/-- C8, witness: the first invocation from the fresh world, a monotonicity
instance, and the ceiling at a world with ten consumed attempts. -/
theorem C8_backoff_policy_witness :
    (scheduleReconnect initialWorld 0).pending = initialWorld.pending ++
      [{ id := initialWorld.nextTimerId,
         delay := min (baseReconnectDelay * 2 ^ (1 - 1) + 0) maxReconnectDelay,
         kind := TimerKind.scheduleReconnectRetry }]
    ∧ backoffDelay 1 0 ≤ backoffDelay 2 0
    ∧ scheduleReconnect wCeiling 0 = wCeiling :=
  ⟨(C8_backoff_policy initialWorld 0 0 1).1 rfl rfl (by decide),
   (C8_backoff_policy initialWorld 0 0 1).2.1 (by norm_num) (by norm_num) (by norm_num) (by norm_num),
   (C8_backoff_policy wCeiling 0 0 1).2.2 (by decide)⟩

/-- C9, counterexample: off() called before any connection exists silently
returns with the manager unchanged instead of failing fast with the
not-initialized error (the embedding of off() is a total function with no
error outcome, mirroring the silent early return at source line 281), while
on() does fail. -/
theorem C9_cex_off_silent_noop :
    offEvent initialMgr "CallStatusChanged" none = initialMgr
    ∧ onEvent initialMgr "CallStatusChanged" 7 = Except.error OnError.notInitialized :=
  ⟨rfl, rfl⟩

/-- C9, amended: before any connection exists, on() fails fast with the
not-initialized error, but off() silently returns without error and without
effect. -/
theorem C9_on_fails_off_silent (m : Mgr) (e : String) (cb : Nat) (ocb : Option Nat)
    (h : m.connection = none) :
    onEvent m e cb = Except.error OnError.notInitialized
    ∧ offEvent m e ocb = m := by
  constructor
  · rw [onEvent, h]
  · rw [offEvent, h]

/-- C9, witness at the freshly constructed manager. -/
theorem C9_on_fails_off_silent_witness :
    (onEvent initialMgr "RCTranscription" 3 = Except.error OnError.notInitialized
      ∧ offEvent initialMgr "RCTranscription" (some 3) = initialMgr)
    ∧ initialMgr.connection = none :=
  ⟨C9_on_fails_off_silent initialMgr "RCTranscription" 3 (some 3) rfl, rfl⟩

/-- C10: the handler registered for the FormDataExtracted transport event
performs exactly one publish onto the outbound channel, with the envelope
type inProgressFormData, the component name rpRealTimeClientDev as title and
the original payload as callFormData; the handler (if any) of every other
inbound event name publishes nothing. -/
theorem C10_form_data_republish {α : Type} (p : α) (name : String)
    (h : name ≠ "FormDataExtracted") :
    handlerPublishes "FormDataExtracted" p =
      [{ type := "inProgressFormData", title := "rpRealTimeClientDev", callFormData := p }]
    ∧ handlerPublishes name p = [] := by
  constructor
  · simp [handlerPublishes]
  · simp [handlerPublishes, h]

/-- C10, witness on a numeric payload and a non-republished event name. -/
theorem C10_form_data_republish_witness :
    (handlerPublishes "FormDataExtracted" (37 : Nat) =
        [{ type := "inProgressFormData", title := "rpRealTimeClientDev", callFormData := 37 }]
      ∧ handlerPublishes "RCTranscription" (37 : Nat) = [])
    ∧ ("RCTranscription" : String) ≠ "FormDataExtracted" :=
  ⟨C10_form_data_republish 37 "RCTranscription" (by decide), by decide⟩

end SignalRManagerDev
